import Mathlib

/-!
Shallow embedding of `telemeter/telemeter.py` (KillianMeersman/telemeter).

Python exceptions become an explicit error type `PyExc`; fallible code
returns `Except PyExc α`.  JSON values are modelled by `JVal`; numbers are
rationals (`ℚ`), so the float divisions of the source (`/ 1E6`, `/= 1000`)
become exact rational divisions guarded by the Python zero-division check.
Dates keep day granularity, which is all `from_json` retains after
`strptime(s[:s.index('T')], "%Y-%m-%d")`.
-/

/-- Python exception classes raised (or raisable) by the module: `KeyError`,
`IndexError`, `TypeError`, `AttributeError`, `ValueError`,
`ZeroDivisionError`, `RuntimeError`, and the module-defined
`UnauthorizedException` (telemeter.py line 16). -/
inductive PyExc where
  | keyError (key : String)
  | indexError
  | typeError (msg : String)
  | attributeError (msg : String)
  | valueError (msg : String)
  | zeroDivisionError
  | runtimeError (msg : String)
  | unauthorizedException (msg : String)
deriving DecidableEq, Repr

/-- Exception class name of a `PyExc` value: two exceptions are of the same
kind exactly when a Python `except` clause naming one class catches both. -/
def PyExc.kind : PyExc → String
  | .keyError _ => "KeyError"
  | .indexError => "IndexError"
  | .typeError _ => "TypeError"
  | .attributeError _ => "AttributeError"
  | .valueError _ => "ValueError"
  | .zeroDivisionError => "ZeroDivisionError"
  | .runtimeError _ => "RuntimeError"
  | .unauthorizedException _ => "UnauthorizedException"

/-- JSON values as produced by Python `json.loads`: strings, numbers,
booleans, null, arrays, and objects (association lists). -/
inductive JVal where
  | str (s : String)
  | num (q : ℚ)
  | bool (b : Bool)
  | null
  | arr (elems : List JVal)
  | obj (fields : List (String × JVal))

/-- Python subscript `x[key]` with a string key: dictionary lookup raising
`KeyError` for a missing key, `TypeError` when `x` is not a dictionary
(strings, lists, numbers are not subscriptable by a string key). -/
def JVal.getKey : JVal → String → Except PyExc JVal
  | .obj fields, key =>
    match fields.lookup key with
    | some v => .ok v
    | none => .error (.keyError key)
  | _, _ => .error (.typeError "value is not subscriptable by a string key")

/-- Python subscript `x[i]` with a non-negative integer index: list indexing
raising `IndexError` out of range; on a string it yields the one-character
string; on a dictionary the integer is looked up as a key and (all keys
being strings here) always raises `KeyError`; otherwise `TypeError`. -/
def JVal.getIdx : JVal → Nat → Except PyExc JVal
  | .arr elems, i =>
    match elems.get? i with
    | some v => .ok v
    | none => .error .indexError
  | .str s, i =>
    match s.toList.get? i with
    | some c => .ok (.str (String.singleton c))
    | none => .error .indexError
  | .obj _, i => .error (.keyError (toString i))
  | _, _ => .error (.typeError "value is not subscriptable")

/-- Use of a JSON value where Python string methods (`.index`, slicing) are
applied: anything but a string raises `AttributeError`. -/
def JVal.asStr : JVal → Except PyExc String
  | .str s => .ok s
  | _ => .error (.attributeError "value has no string methods")

/-- Use of a JSON value as the numerator of `/`: numbers pass through,
booleans count as 0 or 1 (Python `bool` is an `int`), anything else raises
`TypeError`. -/
def JVal.asNum : JVal → Except PyExc ℚ
  | .num q => .ok q
  | .bool b => .ok (if b then 1 else 0)
  | _ => .error (.typeError "unsupported operand type for division")

/-- Python `len(x)` followed by iteration over `x`: a list yields its
elements, a dictionary its keys (as strings), a string its characters;
numbers, booleans and null have no `len` and raise `TypeError`. -/
def JVal.iterElems : JVal → Except PyExc (List JVal)
  | .arr elems => .ok elems
  | .obj fields => .ok (fields.map fun kv => JVal.str kv.1)
  | .str s => .ok (s.toList.map fun c => JVal.str (String.singleton c))
  | _ => .error (.typeError "object is not iterable")

/-- Python true division `a / b`: raises `ZeroDivisionError` on a zero
divisor, otherwise exact division (rationals stand in for floats). -/
def pydiv (a b : ℚ) : Except PyExc ℚ :=
  if b = 0 then .error .zeroDivisionError else .ok (a / b)

/-- Python `s[:s.index('T')]`: the prefix of `s` before its first `'T'`;
`str.index` raises `ValueError` when `'T'` does not occur. -/
def prefixBeforeT (s : String) : Except PyExc String :=
  if s.data.any (fun c => c = 'T') then .ok ⟨s.data.takeWhile fun c => c ≠ 'T'⟩
  else .error (.valueError "substring not found")

/-- Calendar date at day granularity, the information `from_json` keeps of
the parsed `datetime` values. -/
structure PyDate where
  year : Nat
  month : Nat
  day : Nat
deriving DecidableEq, Repr

/-- Split of a character list on a separator, matching the behaviour of
Python `str.split` with a one-character separator. -/
def splitOnChar (sep : Char) : List Char → List (List Char)
  | [] => [[]]
  | c :: rest =>
    if c = sep then [] :: splitOnChar sep rest
    else
      match splitOnChar sep rest with
      | g :: gs => (c :: g) :: gs
      | [] => [[c]]

/-- Digit string predicate used by the `strptime` model. -/
def isDigits (cs : List Char) : Bool :=
  !cs.isEmpty && cs.all Char.isDigit

/-- Numeric value of a digit string. -/
def natOfDigits (cs : List Char) : Nat :=
  cs.foldl (fun n c => n * 10 + (c.toNat - 48)) 0

/-- Gregorian leap-year rule, as validated by Python `datetime`. -/
def isLeapYear (y : Nat) : Bool :=
  (y % 4 = 0 && y % 100 ≠ 0) || y % 400 = 0

/-- Number of days in a month, as validated by Python `datetime`. -/
def daysInMonth (y m : Nat) : Nat :=
  if m = 2 then (if isLeapYear y then 29 else 28)
  else if m = 4 ∨ m = 6 ∨ m = 9 ∨ m = 11 then 30
  else 31

/-- Python `datetime.strptime(s, "%Y-%m-%d")` reduced to the date it
produces: a four-digit year, a one- or two-digit month and day, separated
by `-`, with month and day range-checked; any mismatch raises
`ValueError`. -/
def strptimeDate (s : String) : Except PyExc PyDate :=
  match splitOnChar '-' s.data with
  | [ys, ms, ds] =>
    if ys.length = 4 && isDigits ys
        && ms.length ≥ 1 && ms.length ≤ 2 && isDigits ms
        && ds.length ≥ 1 && ds.length ≤ 2 && isDigits ds then
      let y := natOfDigits ys
      let m := natOfDigits ms
      let d := natOfDigits ds
      if 1 ≤ m ∧ m ≤ 12 ∧ 1 ≤ d ∧ d ≤ daysInMonth y m then .ok ⟨y, m, d⟩
      else .error (.valueError "time data does not match format")
    else .error (.valueError "time data does not match format")
  | _ => .error (.valueError "time data does not match format")

/-- Composite `datetime.strptime(s[:s.index('T')], "%Y-%m-%d")` applied to
a JSON value, as on telemeter.py lines 54-59 and 65. -/
def parseDateT (v : JVal) : Except PyExc PyDate := do
  let s ← v.asStr
  let p ← prefixBeforeT s
  strptimeDate p

/-- Value type of telemeter.py lines 20-29: one day of internet usage. -/
structure UsageDay where
  date : PyDate
  peak_usage : ℚ
  offpeak_usage : ℚ
deriving DecidableEq, Repr

/-- Value type of telemeter.py lines 32-42: the parsed telemeter report.
`squeezed` is stored verbatim as the JSON value found in the payload. -/
structure Telemeter where
  peak_usage : ℚ
  offpeak_usage : ℚ
  squeezed : JVal
  max_usage : ℚ
  days : List UsageDay
  period_start : PyDate
  period_end : PyDate

/-- Loop body of `Telemeter.from_json` (telemeter.py lines 64-68): build one
`UsageDay` from one entry of `dailyusages`, in source evaluation order
(date, then peak, then offpeak). -/
def parseDailyUsage (day : JVal) : Except PyExc UsageDay := do
  let dateVal ← day.getKey "date"
  let date ← parseDateT dateVal
  let peak ← (← day.getKey "peak").asNum
  let peak_usage ← pydiv peak 1000000
  let offpeak ← (← day.getKey "offpeak").asNum
  let offpeak_usage ← pydiv offpeak 1000000
  return ⟨date, peak_usage, offpeak_usage⟩

/-- The loop of telemeter.py lines 62-68 over the `dailyusages` entries:
stops at the first entry whose parse raises, otherwise returns the days in
input order. -/
def parseDailyUsages : List JVal → Except PyExc (List UsageDay)
  | [] => .ok []
  | day :: rest => do
    let u ← parseDailyUsage day
    let us ← parseDailyUsages rest
    return u :: us

/-- The subscript chain of telemeter.py line 49:
`meter_json["internetusage"][0]["availableperiods"][0]["usages"][0]`. -/
def currentUsageOf (meter_json : JVal) : Except PyExc JVal := do
  let a ← meter_json.getKey "internetusage"
  let a0 ← a.getIdx 0
  let b ← a0.getKey "availableperiods"
  let b0 ← b.getIdx 0
  let c ← b0.getKey "usages"
  c.getIdx 0

/-- Lines 48-51: the chain of line 49 inside `try/except KeyError`, which
rethrows any `KeyError` as `RuntimeError("Unexpected JSON received")` and
lets every other exception propagate unchanged. -/
def tryCurrentUsage (meter_json : JVal) : Except PyExc JVal :=
  match currentUsageOf meter_json with
  | .error (.keyError _) => .error (.runtimeError "Unexpected JSON received")
  | r => r

/-- Telemeter.from_json (telemeter.py lines 44-78), with source evaluation
order preserved: current usage extraction, period start, period end, the
`dailyusages` lookup and loop, then the totals, `squeezed`, and the
`Telemeter` construction. -/
def Telemeter.from_json (meter_json : JVal) (service_limit : ℚ) :
    Except PyExc Telemeter := do
  let current_usage ← tryCurrentUsage meter_json
  let period_start ← parseDateT (← current_usage.getKey "periodstart")
  let period_end ← parseDateT (← current_usage.getKey "periodend")
  let totalusage ← current_usage.getKey "totalusage"
  let dailyRaw ← totalusage.getKey "dailyusages"
  let entries ← dailyRaw.iterElems
  let days ← parseDailyUsages entries
  let peak ← (← totalusage.getKey "peak").asNum
  let peak_usage ← pydiv peak 1000000
  let offpeak ← (← totalusage.getKey "offpeak").asNum
  let offpeak_usage ← pydiv offpeak 1000000
  let squeezed ← current_usage.getKey "squeezed"
  return ⟨peak_usage, offpeak_usage, squeezed, service_limit, days,
    period_start, period_end⟩

/-- Telemeter.percentage_used (telemeter.py lines 80-81):
`(self.peak_usage / self.max_usage) * 100`, with the Python division. -/
def Telemeter.percentage_used (t : Telemeter) : Except PyExc ℚ := do
  let r ← pydiv t.peak_usage t.max_usage
  return r * 100

/-- HTTP response as seen by `get_telemeter_json`: the status code and the
body, already split on whether `json.loads` would accept it (`none` models
a body that is not valid JSON). -/
structure HttpResponse where
  status_code : Nat
  body : Option JVal

/-- Python `json.loads(r.text)`: yields the parsed value, or raises the
`JSONDecodeError` (a `ValueError`) on a malformed body. -/
def json_loads (r : HttpResponse) : Except PyExc JVal :=
  match r.body with
  | some j => .ok j
  | none => .error (.valueError "JSONDecodeError")

/-- Python `int(s)` on a string: parses an optionally signed decimal
literal, raising `ValueError` otherwise. -/
def py_int_of_str (s : String) : Except PyExc ℤ :=
  match s.toInt? with
  | some n => .ok n
  | none => .error (.valueError "invalid literal for int")

/-- Python `int(x)`: a number truncates toward zero, a boolean is 0 or 1, a
digit string (with optional sign) parses, anything else raises. -/
def py_int (v : JVal) : Except PyExc ℤ :=
  match v with
  | .num q => .ok (if 0 ≤ q then ⌊q⌋ else ⌈q⌉)
  | .bool b => .ok (if b then 1 else 0)
  | .str s => py_int_of_str s
  | _ => .error (.typeError "int argument must be a string or a number")

/-- Unit adjustment of telemeter.py lines 177-180: `MB` divides the limit
by 1000, `TB` multiplies it by 1000, any other declared unit is left
unchanged. -/
def convert_service_limit (v : ℚ) (unit : String) : ℚ :=
  if unit = "MB" then v / 1000
  else if unit = "TB" then v * 1000
  else v

/-- URL of the usage summary endpoint (telemeter.py line 159). -/
def telemeterUrl : String := "https://api.prd.telenet.be/ocapi/public/?p=internetusage"

/-- get_telemeter_json (telemeter.py lines 152-182).  The network is passed
in as a function from URL to response; the function performs the 401 check,
parses the body, follows `specurl`, reads the service limit and its unit,
and applies the unit adjustment. -/
def get_telemeter_json (net : String → HttpResponse) :
    Except PyExc (JVal × ℚ) :=
  let r := net telemeterUrl
  if r.status_code = 401 then
    .error (.unauthorizedException "Request returned 401")
  else do
  let meter_json ← json_loads r
  let a ← meter_json.getKey "internetusage"
  let a0 ← a.getIdx 0
  let b ← a0.getKey "availableperiods"
  let b0 ← b.getIdx 0
  let c ← b0.getKey "usages"
  let c0 ← c.getIdx 0
  let spec_url ← (← c0.getKey "specurl").asStr
  let r2 := net spec_url
  let spec_json ← json_loads r2
  let product ← spec_json.getKey "product"
  let characteristics ← product.getKey "characteristics"
  let limit ← characteristics.getKey "service_category_limit"
  let service_limit ← py_int (← limit.getKey "value")
  let service_limit_unit ← (← limit.getKey "unit").asStr
  return (meter_json, convert_service_limit (service_limit : ℚ) service_limit_unit)

/-- Default value of the `timeout` parameter of `get_telemeter_cookies`
(telemeter.py line 98). -/
def get_telemeter_cookies_timeout_default : Nat := 3

/-- Exception raised by `get_telemeter_cookies` when a Selenium wait
exceeds the timeout (telemeter.py lines 146-147). -/
def timeoutFailure : PyExc := .runtimeError "Connection timed out"

/-- Exception raised by `Telemeter.from_json` on a missing key along the
line 49 path (telemeter.py line 51). -/
def unexpectedJsonFailure : PyExc := .runtimeError "Unexpected JSON received"

/-- Exception raised by `get_telemeter_json` on a 401 status
(telemeter.py line 163). -/
def unauthorizedFailure : PyExc := .unauthorizedException "Request returned 401"

/-- Timeout argument of the `requests.get` calls in `get_telemeter_json`
(telemeter.py lines 159-160 and 169): none is passed. -/
def get_telemeter_json_request_timeout : Option Nat := none

/-- Path to the `dailyusages` entries of a payload, for stating how
`from_json` relates its output to them. -/
def dailyEntriesOf (meter_json : JVal) : Except PyExc (List JVal) := do
  let current_usage ← tryCurrentUsage meter_json
  let totalusage ← current_usage.getKey "totalusage"
  let dailyRaw ← totalusage.getKey "dailyusages"
  dailyRaw.iterElems

/-- Declared data volumes expressed in bytes, following the decimal
convention of the provider (`MB` = 10^6 bytes, `GB` = 10^9, `TB` = 10^12).
This table follows the specification wording; it is the yardstick against
which `convert_service_limit` is compared. -/
def bytesIn (v : ℚ) (unit : String) : ℚ :=
  if unit = "MB" then v * 1000000
  else if unit = "GB" then v * 1000000000
  else if unit = "TB" then v * 1000000000000
  else v

/-- Payload skeleton shared by the concrete inputs below: one
`internetusage` entry, one available period, one usage entry with the given
fields. -/
def meterPayload (usage : List (String × JVal)) : JVal :=
  .obj [("internetusage", .arr [.obj [("availableperiods", .arr [.obj
    [("usages", .arr [.obj usage])]])]])]

/-- Usage payload in the flat-rate shape: the `totalusage` object carries
only `includedvolume-used` and `extendedvolume-used` (no `peak`, no
`offpeak`), plus an empty `dailyusages` array. -/
def totalOnlyPayload (included ext : ℚ) : JVal :=
  meterPayload [
    ("periodstart", .str "2021-02-01T00:00:00.0+01:00"),
    ("periodend", .str "2021-03-01T00:00:00.0+01:00"),
    ("squeezed", .bool false),
    ("totalusage", .obj [
      ("includedvolume-used", .num included),
      ("extendedvolume-used", .num ext),
      ("dailyusages", .arr [])])]

/-- Usage payload in the metered shape: the `totalusage` object carries
explicit `peak` and `offpeak` fields and an empty `dailyusages` array. -/
def peakPayload (p op : ℚ) : JVal :=
  meterPayload [
    ("periodstart", .str "2021-02-01T00:00:00.0+01:00"),
    ("periodend", .str "2021-03-01T00:00:00.0+01:00"),
    ("squeezed", .bool false),
    ("totalusage", .obj [
      ("peak", .num p),
      ("offpeak", .num op),
      ("dailyusages", .arr [])])]

/-- Usage payload with every field except `periodstart`. -/
def missingPeriodstartPayload : JVal :=
  meterPayload [
    ("periodend", .str "2021-03-01T00:00:00.0+01:00"),
    ("squeezed", .bool false),
    ("totalusage", .obj [
      ("peak", .num 1000),
      ("offpeak", .num 500),
      ("dailyusages", .arr [])])]

/-- Usage payload with every field except `periodend`. -/
def missingPeriodendPayload : JVal :=
  meterPayload [
    ("periodstart", .str "2021-02-01T00:00:00.0+01:00"),
    ("squeezed", .bool false),
    ("totalusage", .obj [
      ("peak", .num 1000),
      ("offpeak", .num 500),
      ("dailyusages", .arr [])])]

/-- Usage payload whose `totalusage` object has no `dailyusages` array. -/
def missingDailyusagesPayload : JVal :=
  meterPayload [
    ("periodstart", .str "2021-02-01T00:00:00.0+01:00"),
    ("periodend", .str "2021-03-01T00:00:00.0+01:00"),
    ("squeezed", .bool false),
    ("totalusage", .obj [
      ("peak", .num 1000),
      ("offpeak", .num 500)])]

/-- Usage payload whose single daily entry lacks the `peak` field. -/
def dayMissingPeakPayload : JVal :=
  meterPayload [
    ("periodstart", .str "2021-02-01T00:00:00.0+01:00"),
    ("periodend", .str "2021-03-01T00:00:00.0+01:00"),
    ("squeezed", .bool false),
    ("totalusage", .obj [
      ("peak", .num 1000),
      ("offpeak", .num 500),
      ("dailyusages", .arr [.obj [
        ("date", .str "2021-02-01T00:00:00.0+01:00"),
        ("offpeak", .num 50)]])])]

/-- Usage payload whose single daily entry lacks the `offpeak` field. -/
def dayMissingOffpeakPayload : JVal :=
  meterPayload [
    ("periodstart", .str "2021-02-01T00:00:00.0+01:00"),
    ("periodend", .str "2021-03-01T00:00:00.0+01:00"),
    ("squeezed", .bool false),
    ("totalusage", .obj [
      ("peak", .num 1000),
      ("offpeak", .num 500),
      ("dailyusages", .arr [.obj [
        ("date", .str "2021-02-01T00:00:00.0+01:00"),
        ("peak", .num 100)]])])]

/-- Raw payload of the scenario in the specification, verbatim: one period
with `start` and `end`, one usage entry with `producttype`, `squeezed`,
period bounds, `includedvolume`, and a `totalusage` object with
`peak = 1000`, `offpeak = 500` and one daily entry. -/
def scenarioPayload : JVal :=
  .obj [("internetusage", .arr [.obj [("availableperiods", .arr [.obj [
    ("start", .str "2021-02-01T00:00:00.0+01:00"),
    ("end", .str "2021-03-01T00:00:00.0+01:00"),
    ("usages", .arr [.obj [
      ("producttype", .str "INTERNET"),
      ("squeezed", .bool false),
      ("periodstart", .str "2021-02-01T00:00:00.0+01:00"),
      ("periodend", .str "2021-03-01T00:00:00.0+01:00"),
      ("includedvolume", .num 500000000),
      ("totalusage", .obj [
        ("peak", .num 1000),
        ("offpeak", .num 500),
        ("dailyusages", .arr [.obj [
          ("date", .str "2021-02-01T00:00:00.0+01:00"),
          ("peak", .num 100),
          ("offpeak", .num 50)]])])]])]])]])]

/-- C1 counterexample: on a concrete flat-rate payload whose `totalusage`
object carries only `includedvolume-used`, `extendedvolume-used` and
`dailyusages`, `Telemeter.from_json` fails with `KeyError("peak")` instead
of yielding zero peak figures and a summed total. -/
theorem from_json_total_only_concrete_failure :
    Telemeter.from_json (totalOnlyPayload 10 5) 100 = .error (.keyError "peak") := rfl

/-- C1 amended: for every flat-rate payload (no `peak`/`offpeak` under
`totalusage`), `Telemeter.from_json` raises `KeyError("peak")`: there is no
fallback to zero, no summation of the four sub-fields, and the `Telemeter`
value type has no `total_usage` field at all. -/
theorem from_json_total_only_raises (included ext sl : ℚ) :
    Telemeter.from_json (totalOnlyPayload included ext) sl
      = .error (.keyError "peak") := rfl

/-- C2 counterexample: on a metered payload reporting `peak = 1000`, the
parsed `peak_usage` is `1/1000` (the reported value divided by 1E6), not
the verbatim `1000` the claim requires. -/
theorem from_json_peak_not_verbatim :
    (Telemeter.from_json (peakPayload 1000 500) 100).map Telemeter.peak_usage
        = .ok (1000/1000000)
    ∧ ((1000 : ℚ)/1000000) ≠ 1000 := ⟨rfl, by norm_num⟩

/-- C2 amended: for every metered payload with explicit `peak`/`offpeak`
fields, `Telemeter.from_json` stores `peak_usage = peak / 10^6` and
`offpeak_usage = offpeak / 10^6` (a unit conversion, not a verbatim copy),
and the resulting `Telemeter` has no `total_usage` field. -/
theorem from_json_peak_shape_divides (p op sl : ℚ) :
    Telemeter.from_json (peakPayload p op) sl
      = .ok ⟨p/1000000, op/1000000, .bool false, sl, [],
          ⟨2021, 2, 1⟩, ⟨2021, 3, 1⟩⟩ := rfl

/-- C3 counterexample: a daily entry that lacks the optional numeric field
`offpeak` makes `Telemeter.from_json` fail with `KeyError("offpeak")`,
instead of succeeding with that field defaulted to zero. -/
theorem from_json_day_missing_offpeak_failure :
    Telemeter.from_json dayMissingOffpeakPayload 100
      = .error (.keyError "offpeak") := rfl

/-- C3 amended: a payload missing `periodstart`, `periodend` or the
`dailyusages` array makes `Telemeter.from_json` raise a `KeyError` naming
that field (a plain `KeyError`, not a dedicated data-shape error); a
missing `producttype` raises nothing because the field is never read (the
`peakPayload` inputs have no `producttype` and parse successfully); and a
daily entry missing `peak` or `offpeak` raises `KeyError` for that field
instead of defaulting it to zero. -/
theorem from_json_required_and_optional_fields (sl : ℚ) :
    Telemeter.from_json missingPeriodstartPayload sl
        = .error (.keyError "periodstart")
    ∧ Telemeter.from_json missingPeriodendPayload sl
        = .error (.keyError "periodend")
    ∧ Telemeter.from_json missingDailyusagesPayload sl
        = .error (.keyError "dailyusages")
    ∧ Telemeter.from_json dayMissingPeakPayload sl
        = .error (.keyError "peak")
    ∧ Telemeter.from_json dayMissingOffpeakPayload sl
        = .error (.keyError "offpeak")
    ∧ Telemeter.from_json (peakPayload 1000 500) sl
        = .ok ⟨1000/1000000, 500/1000000, .bool false, sl, [],
            ⟨2021, 2, 1⟩, ⟨2021, 3, 1⟩⟩ :=
  ⟨rfl, rfl, rfl, rfl, rfl, rfl⟩

/-- C5 counterexample: on the scenario payload of the specification (peak
1000, offpeak 500, one daily entry with peak 100, offpeak 50),
`Telemeter.from_json` reports `peak_usage = 1000/1000000`, not the
`peak_usage = 1000` the claim requires. -/
theorem from_json_scenario_not_claimed_values :
    (Telemeter.from_json scenarioPayload 100).map Telemeter.peak_usage
        = .ok (1000/1000000)
    ∧ ¬ ((Telemeter.from_json scenarioPayload 100).map Telemeter.peak_usage
        = .ok 1000) := by
  refine ⟨rfl, fun h => ?_⟩
  have h1 : ((1000 : ℚ)/1000000) = 1000 := by
    have := Except.ok.inj ((rfl :
      (Telemeter.from_json scenarioPayload 100).map Telemeter.peak_usage
        = .ok (1000/1000000)).symm.trans h)
    exact this
  norm_num at h1

/-- C5 amended: on the scenario payload, `Telemeter.from_json` yields one
`Telemeter` with `peak_usage = 1000/10^6`, `offpeak_usage = 500/10^6`, one
usage day dated 2021-02-01 with `peak_usage = 100/10^6` and
`offpeak_usage = 50/10^6`, and the period running 2021-02-01 to
2021-03-01: the structure of the claim is right, but every usage figure is
divided by 1E6. -/
theorem from_json_scenario (sl : ℚ) :
    Telemeter.from_json scenarioPayload sl
      = .ok ⟨1000/1000000, 500/1000000, .bool false, sl,
          [⟨⟨2021, 2, 1⟩, 100/1000000, 50/1000000⟩],
          ⟨2021, 2, 1⟩, ⟨2021, 3, 1⟩⟩ := rfl

/-- C8 counterexample: the login driver timeout defaults to 3, not 10, and
the timeout failure is a `RuntimeError`, the same generic exception class
as the data-shape failure, so the failure kinds are collapsed. -/
theorem timeout_design_counterexample :
    get_telemeter_cookies_timeout_default ≠ 10
    ∧ PyExc.kind timeoutFailure = PyExc.kind unexpectedJsonFailure :=
  ⟨by decide, rfl⟩

/-- C8 amended: `get_telemeter_cookies` carries a bounded timeout
defaulting to 3 time units, while the `requests.get` calls of
`get_telemeter_json` carry no timeout at all; a timeout raises
`RuntimeError`, which is distinct from the unauthorized error but is the
same generic class as the data-shape error. -/
theorem timeout_design_actual :
    get_telemeter_cookies_timeout_default = 3
    ∧ get_telemeter_json_request_timeout = none
    ∧ PyExc.kind timeoutFailure = "RuntimeError"
    ∧ PyExc.kind unexpectedJsonFailure = "RuntimeError"
    ∧ PyExc.kind timeoutFailure ≠ PyExc.kind unauthorizedFailure :=
  ⟨rfl, rfl, rfl, rfl, by decide⟩

/-- C9: for every `Telemeter` with a nonzero `max_usage`,
`percentage_used` returns exactly `(peak_usage / max_usage) * 100`, and
for `max_usage = 0` it raises the division-by-zero error, so a nonzero
`max_usage` is a precondition of `percentage_used`. -/
theorem percentage_used_spec (t : Telemeter) :
    (t.max_usage ≠ 0 →
      t.percentage_used = .ok (t.peak_usage / t.max_usage * 100))
    ∧ (t.max_usage = 0 →
      t.percentage_used = .error .zeroDivisionError) := by
  constructor <;> intro h <;>
    simp [Telemeter.percentage_used, pydiv, h, Bind.bind, Except.bind,
      Pure.pure, Except.pure]

/-- Concrete `Telemeter` value used to instantiate theorems with
hypotheses. -/
def sampleTelemeter : Telemeter :=
  ⟨5, 2, .bool false, 100, [], ⟨2021, 2, 1⟩, ⟨2021, 3, 1⟩⟩

/-- Witness for C9 at a concrete `Telemeter` with `max_usage = 100`. -/
theorem percentage_used_spec_witness :
    sampleTelemeter.max_usage ≠ 0
    ∧ sampleTelemeter.percentage_used
        = .ok (sampleTelemeter.peak_usage / sampleTelemeter.max_usage * 100) :=
  ⟨by decide, (percentage_used_spec sampleTelemeter).1 (by decide)⟩

/-- C10: a `KeyError` arising from the subscript chain of line 49 is
rethrown as `RuntimeError("Unexpected JSON received")`; any other
exception from that chain (in particular the `IndexError` produced when
one of the arrays on the path is present but empty) propagates unchanged;
and the three empty-array inputs do produce that `IndexError`. -/
theorem from_json_try_scope (j : JVal) (sl : ℚ) :
    (∀ k, currentUsageOf j = .error (.keyError k) →
      Telemeter.from_json j sl = .error unexpectedJsonFailure)
    ∧ (∀ e, currentUsageOf j = .error e → (∀ k, e ≠ .keyError k) →
      Telemeter.from_json j sl = .error e)
    ∧ Telemeter.from_json (.obj [("internetusage", .arr [])]) sl
        = .error .indexError
    ∧ Telemeter.from_json
        (.obj [("internetusage", .arr [.obj [("availableperiods", .arr [])]])]) sl
        = .error .indexError
    ∧ Telemeter.from_json
        (.obj [("internetusage", .arr [.obj [("availableperiods",
          .arr [.obj [("usages", .arr [])]])]])]) sl
        = .error .indexError := by
  refine ⟨?_, ?_, rfl, rfl, rfl⟩
  · intro k h
    unfold Telemeter.from_json tryCurrentUsage
    rw [h]
    rfl
  · intro e h hk
    unfold Telemeter.from_json tryCurrentUsage
    rw [h]
    cases e <;> first | rfl | exact absurd rfl (hk _)

/-- Witness for C10: with `internetusage` present but empty, the
`IndexError` reaches the caller unconverted. -/
theorem from_json_try_scope_witness :
    Telemeter.from_json (.obj [("internetusage", .arr [])]) 100
      = .error .indexError :=
  (from_json_try_scope (.obj [("internetusage", .arr [])]) 100).2.1
    .indexError rfl (fun _ h => nomatch h)

/-- Success of an `Except` bind splits into success of both stages. -/
theorem except_bind_ok {α β : Type} {x : Except PyExc α}
    {f : α → Except PyExc β} {b : β} :
    x >>= f = .ok b ↔ ∃ a, x = .ok a ∧ f a = .ok b := by
  cases x <;> simp [Bind.bind, Except.bind]

/-- Success of an `Except` pure determines the value. -/
theorem except_pure_ok {α : Type} {a b : α} :
    (pure a : Except PyExc α) = .ok b ↔ a = b := by
  simp [Pure.pure, Except.pure]

/-- Reduction of an `Except` bind on a successful first stage. -/
theorem except_ok_bind {α β : Type} (a : α) (f : α → Except PyExc β) :
    (Except.ok a : Except PyExc α) >>= f = f a := rfl

/-- Success of the daily-usage loop gives an elementwise correspondence
between input entries and parsed days, in order. -/
theorem parseDailyUsages_forall2 : ∀ {es : List JVal} {us : List UsageDay},
    parseDailyUsages es = .ok us →
    List.Forall₂ (fun e u => parseDailyUsage e = .ok u) es us := by
  intro es
  induction es with
  | nil =>
    intro us h
    simp only [parseDailyUsages] at h
    cases h
    exact List.Forall₂.nil
  | cons e rest ih =>
    intro us h
    simp only [parseDailyUsages, except_bind_ok, except_pure_ok] at h
    obtain ⟨u, hu, us', hus', hcons⟩ := h
    cases hcons
    exact List.Forall₂.cons hu (ih hus')

/-- C4: whenever `Telemeter.from_json` succeeds, its `days` sequence has
exactly the length of the `dailyusages` array of the input, and the days
correspond to the input entries one-for-one in the same order. -/
theorem from_json_days_length_order (j : JVal) (sl : ℚ) (t : Telemeter)
    (h : Telemeter.from_json j sl = .ok t) :
    ∃ entries, dailyEntriesOf j = .ok entries
      ∧ t.days.length = entries.length
      ∧ List.Forall₂ (fun e u => parseDailyUsage e = .ok u) entries t.days := by
  unfold Telemeter.from_json at h
  simp only [except_bind_ok, except_pure_ok] at h
  obtain ⟨cu, hcu, h⟩ := h
  obtain ⟨psv, hpsv, h⟩ := h
  obtain ⟨ps, hps, h⟩ := h
  obtain ⟨pev, hpev, h⟩ := h
  obtain ⟨pe, hpe, h⟩ := h
  obtain ⟨tu, htu, h⟩ := h
  obtain ⟨draw, hdraw, h⟩ := h
  obtain ⟨entries, hentries, h⟩ := h
  obtain ⟨days, hdays, h⟩ := h
  obtain ⟨pkv, hpkv, h⟩ := h
  obtain ⟨pk, hpk, h⟩ := h
  obtain ⟨pu, hpu, h⟩ := h
  obtain ⟨opv, hopv, h⟩ := h
  obtain ⟨op, hop, h⟩ := h
  obtain ⟨opu, hopu, h⟩ := h
  obtain ⟨sq, hsq, h⟩ := h
  subst h
  have hf := parseDailyUsages_forall2 hdays
  refine ⟨entries, ?_, ?_, hf⟩
  · simp [dailyEntriesOf, hcu, except_ok_bind, htu, hdraw, hentries]
  · exact hf.length_eq.symm

/-- Witness for C4 at the scenario payload, whose `dailyusages` array has
one entry. -/
theorem from_json_days_length_order_witness :
    ∃ entries, dailyEntriesOf scenarioPayload = .ok entries
      ∧ (Telemeter.mk (1000/1000000) (500/1000000) (.bool false) 100
          [⟨⟨2021, 2, 1⟩, 100/1000000, 50/1000000⟩]
          ⟨2021, 2, 1⟩ ⟨2021, 3, 1⟩).days.length = entries.length
      ∧ List.Forall₂ (fun e u => parseDailyUsage e = .ok u) entries
          (Telemeter.mk (1000/1000000) (500/1000000) (.bool false) 100
            [⟨⟨2021, 2, 1⟩, 100/1000000, 50/1000000⟩]
            ⟨2021, 2, 1⟩ ⟨2021, 3, 1⟩).days :=
  from_json_days_length_order scenarioPayload 100
    (Telemeter.mk (1000/1000000) (500/1000000) (.bool false) 100
      [⟨⟨2021, 2, 1⟩, 100/1000000, 50/1000000⟩]
      ⟨2021, 2, 1⟩ ⟨2021, 3, 1⟩) rfl

/-- Results that carry the module-defined `UnauthorizedException`. -/
def isUnauthorizedResult {α : Type} (r : Except PyExc α) : Prop :=
  ∃ m, r = .error (.unauthorizedException m)

/-- A bind is unauthorized only if one of its stages is. -/
theorem not_auth_bind {α β : Type} {x : Except PyExc α}
    {f : α → Except PyExc β}
    (hx : ¬ isUnauthorizedResult x) (hf : ∀ a, ¬ isUnauthorizedResult (f a)) :
    ¬ isUnauthorizedResult (x >>= f) := by
  cases x with
  | error e =>
    rintro ⟨m, hm⟩
    exact hx ⟨m, by simpa [Bind.bind, Except.bind] using hm⟩
  | ok a =>
    rintro ⟨m, hm⟩
    exact hf a ⟨m, by simpa [Bind.bind, Except.bind] using hm⟩

/-- Dictionary lookup never raises the unauthorized error. -/
theorem getKey_not_auth (v : JVal) (k : String) :
    ¬ isUnauthorizedResult (v.getKey k) := by
  rintro ⟨m, hm⟩
  unfold JVal.getKey at hm
  cases v <;> simp at hm
  split at hm <;> cases hm

/-- List indexing never raises the unauthorized error. -/
theorem getIdx_not_auth (v : JVal) (i : Nat) :
    ¬ isUnauthorizedResult (v.getIdx i) := by
  rintro ⟨m, hm⟩
  unfold JVal.getIdx at hm
  cases v <;> simp at hm <;> split at hm <;> cases hm

/-- String coercion never raises the unauthorized error. -/
theorem asStr_not_auth (v : JVal) :
    ¬ isUnauthorizedResult v.asStr := by
  rintro ⟨m, hm⟩
  unfold JVal.asStr at hm
  cases v <;> cases hm

/-- JSON decoding never raises the unauthorized error. -/
theorem json_loads_not_auth (r : HttpResponse) :
    ¬ isUnauthorizedResult (json_loads r) := by
  rintro ⟨m, hm⟩
  unfold json_loads at hm
  split at hm <;> cases hm

/-- Integer coercion never raises the unauthorized error. -/
theorem py_int_not_auth (v : JVal) :
    ¬ isUnauthorizedResult (py_int v) := by
  rintro ⟨m, hm⟩
  unfold py_int at hm
  cases v with
  | str s =>
    have hs : py_int_of_str s = Except.error (PyExc.unauthorizedException m) := hm
    unfold py_int_of_str at hs
    split at hs <;> cases hs
  | num q => cases hm
  | bool b => cases hm
  | null => cases hm
  | arr es => cases hm
  | obj fs => cases hm

/-- A pure result is never the unauthorized error. -/
theorem pure_not_auth {α : Type} (a : α) :
    ¬ isUnauthorizedResult (pure a : Except PyExc α) := by
  rintro ⟨m, hm⟩
  cases hm

/-- C6: `get_telemeter_json` raises `UnauthorizedException` exactly when
the usage-summary endpoint answers with HTTP status 401; every other
status never produces the unauthorized error, whatever else the responses
contain. -/
theorem get_telemeter_json_unauthorized_iff (net : String → HttpResponse) :
    isUnauthorizedResult (get_telemeter_json net)
      ↔ (net telemeterUrl).status_code = 401 := by
  constructor
  · intro h
    by_contra hne
    revert h
    unfold get_telemeter_json
    rw [if_neg hne]
    refine not_auth_bind (json_loads_not_auth _) (fun mj => ?_)
    refine not_auth_bind (getKey_not_auth _ _) (fun a => ?_)
    refine not_auth_bind (getIdx_not_auth _ _) (fun a0 => ?_)
    refine not_auth_bind (getKey_not_auth _ _) (fun b => ?_)
    refine not_auth_bind (getIdx_not_auth _ _) (fun b0 => ?_)
    refine not_auth_bind (getKey_not_auth _ _) (fun c => ?_)
    refine not_auth_bind (getIdx_not_auth _ _) (fun c0 => ?_)
    refine not_auth_bind (getKey_not_auth _ _) (fun su => ?_)
    refine not_auth_bind (asStr_not_auth _) (fun spec_url => ?_)
    refine not_auth_bind (json_loads_not_auth _) (fun sj => ?_)
    refine not_auth_bind (getKey_not_auth _ _) (fun product => ?_)
    refine not_auth_bind (getKey_not_auth _ _) (fun ch => ?_)
    refine not_auth_bind (getKey_not_auth _ _) (fun lim => ?_)
    refine not_auth_bind (getKey_not_auth _ _) (fun lv => ?_)
    refine not_auth_bind (py_int_not_auth _) (fun sv => ?_)
    refine not_auth_bind (getKey_not_auth _ _) (fun uv => ?_)
    refine not_auth_bind (asStr_not_auth _) (fun us => ?_)
    exact pure_not_auth _
  · intro h
    refine ⟨"Request returned 401", ?_⟩
    unfold get_telemeter_json
    rw [if_pos h]

/-- Python `int` truncation is the identity on integer-valued numbers. -/
theorem py_int_intCast (v : ℤ) : py_int (.num (v : ℚ)) = .ok v := by
  show Except.ok (if 0 ≤ ((v : ℤ) : ℚ) then ⌊((v : ℤ) : ℚ)⌋ else ⌈((v : ℤ) : ℚ)⌉)
    = Except.ok v
  by_cases h : 0 ≤ ((v : ℤ) : ℚ) <;> simp [h]

/-- Meter payload whose usage entry carries only the `specurl` pointer
followed by `get_telemeter_json` for the spec enrichment step. -/
def specMeterPayload : JVal :=
  meterPayload [("specurl", .str "https://spec.example/product")]

/-- Spec-endpoint payload declaring a service limit of value `v` in the
given unit, in the shape read by telemeter.py lines 172-175. -/
def specPayload (v : ℤ) (unit : String) : JVal :=
  .obj [("product", .obj [("characteristics", .obj
    [("service_category_limit", .obj
      [("value", .num (v : ℚ)), ("unit", .str unit)])])])]

/-- Network with the usage-summary endpoint answering `specMeterPayload`
and every other URL (in particular the spec URL) answering the spec
payload, both with status 200. -/
def specNet (v : ℤ) (unit : String) : String → HttpResponse := fun url =>
  if url = telemeterUrl then ⟨200, some specMeterPayload⟩
  else ⟨200, some (specPayload v unit)⟩

/-- C7: for every spec payload declaring the limit in `MB` or `TB`, the
fetch returns the declared value converted to the common unit (gigabytes):
re-expressed in bytes, the returned limit in GB equals the declared
quantity in its declared unit. -/
theorem get_telemeter_json_limit_common_unit (v : ℤ) (u : String)
    (hu : u = "MB" ∨ u = "TB") :
    ∃ limit, get_telemeter_json (specNet v u) = .ok (specMeterPayload, limit)
      ∧ bytesIn limit "GB" = bytesIn (v : ℚ) u := by
  refine ⟨convert_service_limit (v : ℚ) u, ?_, ?_⟩
  · have h0 : get_telemeter_json (specNet v u)
        = py_int (.num (v : ℚ)) >>= fun sl =>
            pure (specMeterPayload, convert_service_limit (sl : ℚ) u) := rfl
    rw [h0, py_int_intCast]
    rfl
  · rcases hu with h | h <;> subst h <;>
      simp [convert_service_limit, bytesIn] <;> ring

/-- Witness for C7: a declared limit of 5 MB comes back as 5/1000 GB,
which is the same number of bytes. -/
theorem get_telemeter_json_limit_common_unit_witness :
    ("MB" = "MB" ∨ "MB" = "TB")
    ∧ ∃ limit, get_telemeter_json (specNet 5 "MB")
        = .ok (specMeterPayload, limit)
      ∧ bytesIn limit "GB" = bytesIn ((5 : ℤ) : ℚ) "MB" :=
  ⟨Or.inl rfl, get_telemeter_json_limit_common_unit 5 "MB" (Or.inl rfl)⟩
